import Mathlib

/-!
Verification development for the CSV-to-JSON equipment-push converter
(`数据处理.py`).  The Python source is shallowly embedded: pure helper
functions become Lean functions on `String` / `List Char`, Python `float`
values are modelled as exact fractions (`PyFloat`), raised exceptions are
modelled with `Option` / `Except`, and the two wall-clock reads
(`datetime.now()` for the YYYYMMDD id-date and for the fallback timestamp)
become explicit `today` / `now` parameters.  File reading/decoding is
abstracted as the ordered list of per-encoding decode outcomes
(`none` = decode or parse error, `some rows` = a full successful pass).
-/

/-! Character and digit utilities (models of Python primitives). -/

/-- Model of the whitespace class used by Python `str.strip()` / `int()` /
`float()` (restricted to the ASCII whitespace characters). -/
def isWS (c : Char) : Bool :=
  c = ' ' || c = '\t' || c = '\n' || c = '\r' || c = '\x0b' || c = '\x0c'

/-- Strip leading and trailing whitespace from a character list
(model of Python `str.strip()`). -/
def pyStripL (l : List Char) : List Char :=
  ((l.dropWhile isWS).reverse.dropWhile isWS).reverse

/-- Model of Python `str.strip()`. -/
def pyStrip (s : String) : String :=
  String.mk (pyStripL s.data)

/-- The decimal digit character for a digit value. -/
def digitCh (d : Nat) : Char :=
  match d with
  | 0 => '0' | 1 => '1' | 2 => '2' | 3 => '3' | 4 => '4'
  | 5 => '5' | 6 => '6' | 7 => '7' | 8 => '8' | _ => '9'

/-- Fuel-driven decimal rendering of a natural number (most significant
digit first).  Fuel `n+1` always suffices. -/
def natDigitsAux : Nat → Nat → List Char
  | 0, _ => []
  | fuel+1, n =>
    if n < 10 then [digitCh n]
    else natDigitsAux fuel (n / 10) ++ [digitCh (n % 10)]

/-- Decimal digit list of a natural number. -/
def natDigits (n : Nat) : List Char := natDigitsAux (n+1) n

/-- Model of Python `str(i)` for a non-negative integer. -/
def pyStr (n : Nat) : String := String.mk (natDigits n)

/-- Numeric value of a decimal digit list (leading zeros allowed). -/
def digitsToNat (l : List Char) : Nat :=
  l.foldl (fun a c => a * 10 + (c.toNat - 48)) 0

/-- A non-empty list of decimal digit characters. -/
def isDigitL (l : List Char) : Bool :=
  !l.isEmpty && l.all Char.isDigit

/-- Left-pad a digit list with zeros to width `w`
(model of Python `str.zfill` on a sign-free string). -/
def zfillL (w : Nat) (l : List Char) : List Char :=
  List.replicate (w - l.length) '0' ++ l

/-- Model of Python `str.zfill` on a sign-free string. -/
def pyZfill (s : String) (w : Nat) : String :=
  String.mk (zfillL w s.data)

/-- Model of Python `int(s)`: optional surrounding whitespace, optional
sign, then a non-empty run of decimal digits; anything else raises
(`none`).  (Underscore digit grouping is not modelled; no input in this
development contains it.) -/
def pyIntL (l : List Char) : Option Int :=
  match pyStripL l with
  | '+' :: r => if isDigitL r then some (digitsToNat r : Int) else none
  | '-' :: r => if isDigitL r then some (-(digitsToNat r : Int)) else none
  | r => if isDigitL r then some (digitsToNat r : Int) else none

/-! Exact-fraction model of Python float values.  The fractions are kept
unnormalized; every operation the pipeline performs is exact on the
values exercised here (IEEE-754 rounding of inexact operations is not
modelled). -/

/-- An exact fraction standing in for a Python `float`.
`den` is positive for every value the pipeline constructs. -/
structure PyFloat where
  num : Int
  den : Nat
  deriving DecidableEq

/-- The float 0.0. -/
def pfZero : PyFloat := ⟨0, 1⟩

/-- Fraction addition (unnormalized). -/
def pfAdd (a b : PyFloat) : PyFloat :=
  ⟨a.num * (b.den : Int) + b.num * (a.den : Int), a.den * b.den⟩

/-- Division of a fraction by a positive count. -/
def pfDivNat (a : PyFloat) (n : Nat) : PyFloat :=
  ⟨a.num, a.den * n⟩

/-- Is the value zero (denominators are positive by construction)? -/
def pfIsZero (a : PyFloat) : Bool := a.num = 0

/-- Sum of a list of fractions starting from 0 (model of Python `sum`). -/
def pfSum (l : List PyFloat) : PyFloat := l.foldl pfAdd pfZero

/-- Parse an optional sign followed by the rest. Returns (negative?, rest). -/
def parseSign : List Char → Bool × List Char
  | '+' :: r => (false, r)
  | '-' :: r => (true, r)
  | r => (false, r)

/-- Model of Python `float(s)` on an already-stripped string: optional
sign, decimal digits with an optional fractional part (at least one digit
overall), and an optional exponent part.  (`inf`, `nan`, hexadecimal and
underscore forms are not modelled; no input here uses them.) -/
def parseFloat? (l : List Char) : Option PyFloat :=
  let (neg, r0) := parseSign l
  let ip := r0.takeWhile Char.isDigit
  let r1 := r0.dropWhile Char.isDigit
  let (fp, r2) :=
    match r1 with
    | '.' :: r => (r.takeWhile Char.isDigit, r.dropWhile Char.isDigit)
    | _ => ([], r1)
  if ip.isEmpty && fp.isEmpty then none
  else
    let mantNum : Int := (digitsToNat ip * 10 ^ fp.length + digitsToNat fp : Nat)
    let mantDen : Nat := 10 ^ fp.length
    let signed : Int := if neg then -mantNum else mantNum
    match r2 with
    | [] => some ⟨signed, mantDen⟩
    | 'e' :: r3 =>
      let (eneg, r4) := parseSign r3
      if isDigitL r4 then
        let e := digitsToNat r4
        if eneg then some ⟨signed, mantDen * 10 ^ e⟩
        else some ⟨signed * (10 ^ e : Nat), mantDen⟩
      else none
    | 'E' :: r3 =>
      let (eneg, r4) := parseSign r3
      if isDigitL r4 then
        let e := digitsToNat r4
        if eneg then some ⟨signed, mantDen * 10 ^ e⟩
        else some ⟨signed * (10 ^ e : Nat), mantDen⟩
      else none
    | _ => none

/-- Model of the Python format expression `f"\x7bv:.6f\x7d"` on an exact
fraction: fixed-point rendering with 6 decimal places, rounding half to
even, sign taken from the value. -/
def fmt6 (q : PyFloat) : String :=
  let scaled := q.num.natAbs * 1000000
  let fl := scaled / q.den
  let r := scaled % q.den
  let n :=
    if q.den < 2 * r then fl + 1
    else if 2 * r < q.den then fl
    else if fl % 2 = 0 then fl else fl + 1
  (if q.num < 0 then "-" else "") ++
    pyStr (n / 1000000) ++ "." ++ String.mk (zfillL 6 (natDigits (n % 1000000)))

/-! The source file's helper functions. -/

/-- Source: `generate_id(prefix, index)` returns
`f"\x7bprefix\x7d_\x7bdatetime.now().strftime(t)\x7d_\x7bstr(index).zfill(3)\x7d"`
with `t = "%Y%m%d"`; the formatted current date is the `today` parameter. -/
def generate_id (today : String) (pre : String) (index : Nat) : String :=
  pre ++ "_" ++ today ++ "_" ++ pyZfill (pyStr index) 3

/-- Split a character list at the first run of four consecutive
asterisks; `some (before, after)` when present
(model of membership / first split for the separator `"****"`). -/
def splitQuad : List Char → Option (List Char × List Char)
  | '*' :: '*' :: '*' :: '*' :: rest => some ([], rest)
  | c :: rest =>
    match splitQuad rest with
    | some (p, q) => some (c :: p, q)
    | none => none
  | [] => none

/-- Source: `parse_phone(phone_str)`.  Blank input returns 0; an input
containing `"****"` is split on it and `int(parts[0] + "0000" + parts[1])`
is returned (`parts[1]` is the text up to the next marker, if any);
otherwise hyphens and spaces are removed and the remainder passed to
`int`.  `none` models a raised `ValueError`. -/
def parse_phone (s : String) : Option Int :=
  if (pyStripL s.data).isEmpty then some 0
  else
    match splitQuad s.data with
    | some (p0, rest) =>
      let p1 := match splitQuad rest with
        | some (p, _) => p
        | none => rest
      pyIntL (p0 ++ ['0', '0', '0', '0'] ++ p1)
    | none => pyIntL (((s.data.filter (fun c => c ≠ '-'))).filter (fun c => c ≠ ' '))

/-! Model of `datetime.strptime` for the two formats the source tries,
following the regexes CPython compiles for them:
`%Y` is exactly four digits, `%m` matches `1[0-2]|0[1-9]|[1-9]`,
`%d` matches `3[01]|[12]\d|0[1-9]|[1-9]`, `%H` matches `2[0-3]|[0-1]\d|\d`,
`%M` matches `[0-5]\d|\d`, a literal space matches one or more whitespace
characters, the whole input must be consumed, and the resulting date must
be constructible (`datetime` validates the day against the month length
and requires year ≥ 1). -/

/-- The digit value of a character, if it is a decimal digit. -/
def digit? (c : Char) : Option Nat :=
  if c.isDigit then some (c.toNat - 48) else none

/-- Parse exactly four digits (the `%Y` field). -/
def parseYear4 : List Char → Option (Nat × List Char)
  | a :: b :: c :: d :: rest =>
    match digit? a, digit? b, digit? c, digit? d with
    | some w, some x, some y, some z => some (((w * 10 + x) * 10 + y) * 10 + z, rest)
    | _, _, _, _ => none
  | _ => none

/-- Parse a one- or two-digit field: two digits are consumed when their
value lies in `[lo2, hi2]`, otherwise a single digit with value in
`[lo1, hi1]`.  This reproduces the regex alternations above (in each
format the field is followed by a non-digit, so no backtracking case is
lost). -/
def parse2or1 (lo2 hi2 lo1 hi1 : Nat) : List Char → Option (Nat × List Char)
  | a :: b :: rest =>
    match digit? a, digit? b with
    | some x, some y =>
      let v := x * 10 + y
      if lo2 ≤ v ∧ v ≤ hi2 then some (v, rest)
      else if lo1 ≤ x ∧ x ≤ hi1 then some (x, b :: rest)
      else none
    | some x, none =>
      if lo1 ≤ x ∧ x ≤ hi1 then some (x, b :: rest) else none
    | _, _ => none
  | [a] =>
    match digit? a with
    | some x => if lo1 ≤ x ∧ x ≤ hi1 then some (x, []) else none
    | none => none
  | [] => none

/-- Parse the `%d` field: the regex `3[0-1]|[1-2]\d|0[1-9]|[1-9]| [1-9]`
(the last alternative is a literal space followed by a non-zero digit). -/
def parseDay (l : List Char) : Option (Nat × List Char) :=
  match parse2or1 1 31 1 9 l with
  | some r => some r
  | none =>
    match l with
    | ' ' :: c :: rest =>
      match digit? c with
      | some x => if 1 ≤ x ∧ x ≤ 9 then some (x, rest) else none
      | none => none
    | _ => none

/-- Consume the expected literal character. -/
def expectCh (c : Char) : List Char → Option (List Char)
  | d :: rest => if d = c then some rest else none
  | [] => none

/-- Consume one or more whitespace characters (the regex `\s+` that a
literal space in the format compiles to). -/
def skipWS1 : List Char → Option (List Char)
  | c :: rest => if isWS c then some (rest.dropWhile isWS) else none
  | [] => none

/-- Is the year a Gregorian leap year? -/
def isLeap (y : Nat) : Bool :=
  (y % 4 = 0 && y % 100 ≠ 0) || y % 400 = 0

/-- Days in a month (month assumed in 1..12). -/
def daysInMonth (y m : Nat) : Nat :=
  if m = 2 then (if isLeap y then 29 else 28)
  else if m = 4 || m = 6 || m = 9 || m = 11 then 30
  else 31

/-- A parsed wall-clock value (seconds are always zero here). -/
structure DT where
  year : Nat
  month : Nat
  day : Nat
  hour : Nat
  minute : Nat
  deriving DecidableEq

/-- Model of `datetime.strptime(s, f"%Y\x7bsep\x7d%m\x7bsep\x7d%d %H:%M")`:
`some` on a full match that yields a constructible date, else `none`. -/
def strptimeYmdHm (sep : Char) (l : List Char) : Option DT := do
  let (y, r1) ← parseYear4 l
  let r2 ← expectCh sep r1
  let (mo, r3) ← parse2or1 1 12 1 9 r2
  let r4 ← expectCh sep r3
  let (d, r5) ← parseDay r4
  let r6 ← skipWS1 r5
  let (h, r7) ← parse2or1 0 23 0 9 r6
  let r8 ← expectCh ':' r7
  let (mi, r9) ← parse2or1 0 59 0 9 r8
  if r9.isEmpty ∧ 1 ≤ y ∧ d ≤ daysInMonth y mo then
    some ⟨y, mo, d, h, mi⟩
  else
    none

/-- Model of `dt.strftime("%Y-%m-%d %H:%M:%S")` (seconds are zero). -/
def fmtDT (d : DT) : String :=
  String.mk (zfillL 4 (natDigits d.year)) ++ "-" ++
    String.mk (zfillL 2 (natDigits d.month)) ++ "-" ++
    String.mk (zfillL 2 (natDigits d.day)) ++ " " ++
    String.mk (zfillL 2 (natDigits d.hour)) ++ ":" ++
    String.mk (zfillL 2 (natDigits d.minute)) ++ ":00"

/-- Source: `parse_datetime(date_str)`.  Blank input returns the current
instant formatted as `YYYY-MM-DD HH:MM:SS` (the `now` parameter); then
the slash format is tried, then the dash format; on both failing the
current instant is returned.  Total: never raises. -/
def parse_datetime (now : String) (s : String) : String :=
  if (pyStripL s.data).isEmpty then now
  else
    match strptimeYmdHm '/' s.data with
    | some d => fmtDT d
    | none =>
      match strptimeYmdHm '-' s.data with
      | some d => fmtDT d
      | none => now

/-- Source: `safe_float(value, default)`.  `None`, the empty string and
blank strings give the default; otherwise the stripped string is parsed
as a float, any parse failure giving the default. -/
def safe_float (v : Option String) (default : PyFloat) : PyFloat :=
  match v with
  | none => default
  | some s =>
    if s = "" ∨ pyStripL s.data = [] then default
    else
      match parseFloat? (pyStripL s.data) with
      | some q => q
      | none => default

/-- Source: `safe_str(value, default)`.  `None` and the empty string give
the default; otherwise the stripped string. -/
def safe_str (v : Option String) (default : String) : String :=
  match v with
  | none => default
  | some s => if s = "" then default else pyStrip s

/-! The conversion pipeline (`csv_to_json`). -/

/-- A CSV row as produced by `csv.DictReader`: a finite mapping from
column name to cell text (a missing column reads as `None`). -/
abbrev Row := List (String × String)

/-- Model of `row.get(k)`. -/
def rowGet (r : Row) (k : String) : Option String :=
  (r.find? (fun p => p.1 == k)).map (fun p => p.2)

/-- Model of `row.get(k, d)`. -/
def rowGetD (r : Row) (k : String) (d : String) : String :=
  match rowGet r k with
  | some v => v
  | none => d

/-- An exception the pipeline can raise: `KeyError` from reading a
missing configuration key, `ValueError` from `int()` in `parse_phone`. -/
inductive PyErr where
  | keyError
  | valueError
  deriving DecidableEq

/-- Decidable equality for `Except`, used to evaluate concrete runs. -/
instance {ε α : Type} [DecidableEq ε] [DecidableEq α] : DecidableEq (Except ε α) :=
  fun a b =>
    match a, b with
    | .ok x, .ok y =>
      if h : x = y then .isTrue (congrArg Except.ok h)
      else .isFalse (fun c => h (Except.ok.inj c))
    | .error x, .error y =>
      if h : x = y then .isTrue (congrArg Except.error h)
      else .isFalse (fun c => h (Except.error.inj c))
    | .ok _, .error _ => .isFalse (fun c => Except.noConfusion c)
    | .error _, .ok _ => .isFalse (fun c => Except.noConfusion c)

/-- The configuration mapping after defaults and overrides are merged.
`manage_company` is an `Option` because the source's built-in
`default_config` has no `'manage_company'` entry: reading it when no
caller supplied one raises `KeyError`. -/
structure Config where
  sys_flag : String
  object_type : String
  region_code : String
  project_id : String
  equip_type : String
  product_code : String
  object_name : String
  subject_type : String
  manage_company : Option String
  deriving DecidableEq

/-- Source: the `default_config` literal in `csv_to_json`.  Note the
absence of a managing-company entry. -/
def default_config : Config :=
  { sys_flag := "gas"
    object_type := "OBJ_GX"
    region_code := "110000"
    project_id := "ssxm_hrrqeq"
    equip_type := "jcsb174"
    product_code := "0167"
    object_name := "燃气管线"
    subject_type := "gas_pipeline"
    manage_company := none }

/-- A caller-supplied configuration dictionary: each knob is present
(`some`) or absent (`none`). -/
structure ConfigOverride where
  sys_flag : Option String
  object_type : Option String
  region_code : Option String
  project_id : Option String
  equip_type : Option String
  product_code : Option String
  object_name : Option String
  subject_type : Option String
  manage_company : Option String
  deriving DecidableEq

/-- The empty caller configuration (calling `csv_to_json` without
`config`). -/
def noConfig : ConfigOverride :=
  { sys_flag := none, object_type := none, region_code := none
    project_id := none, equip_type := none, product_code := none
    object_name := none, subject_type := none, manage_company := none }

/-- Source: `default_config.update(config)` — keys present in the caller
configuration replace the defaults, absent keys keep them. -/
def updateConfig (d : Config) (c : ConfigOverride) : Config :=
  { sys_flag := (c.sys_flag).getD d.sys_flag
    object_type := (c.object_type).getD d.object_type
    region_code := (c.region_code).getD d.region_code
    project_id := (c.project_id).getD d.project_id
    equip_type := (c.equip_type).getD d.equip_type
    product_code := (c.product_code).getD d.product_code
    object_name := (c.object_name).getD d.object_name
    subject_type := (c.subject_type).getD d.subject_type
    manage_company :=
      match c.manage_company with
      | some v => some v
      | none => d.manage_company }

/-- Source: the row filter inside the reading loop —
`if row.get('设备编号') and str(row.get('设备编号')).strip():`. -/
def keyOk (r : Row) : Bool :=
  match rowGet r "设备编号" with
  | some v => v ≠ "" && pyStrip v ≠ ""
  | none => false

/-- Model of the encoding-trial reading loop: each candidate encoding
either fails (`none`: rows accumulated so far are discarded and the next
candidate is tried) or completes a full pass (`some rows`: the rows that
pass the primary-key filter are kept and the loop breaks).  If every
candidate fails the result is empty. -/
def readRows : List (Option (List Row)) → List Row
  | [] => []
  | none :: rest => readRows rest
  | some rows :: _ => rows.filter keyOk

/-- The first successful decode attempt, if any (analysis helper for
stating where the accepted rows come from). -/
def firstDecode : List (Option (List Row)) → Option (List Row)
  | [] => none
  | none :: rest => firstDecode rest
  | some rows :: _ => some rows

/-- Source: `object_code = f"..."` built from the merged configuration:
region code, system flag, and the fixed `_OBJ_001` suffix. -/
def object_code (cfg : Config) : String :=
  cfg.region_code ++ "_" ++ cfg.sys_flag ++ "_OBJ_001"

/-- Source: the `valid_coords` comprehension — the (longitude, latitude)
pairs of the rows whose two coordinates both normalize to non-zero. -/
def valid_coords (rows : List Row) : List (PyFloat × PyFloat) :=
  (rows.filter (fun r =>
      !pfIsZero (safe_float (rowGet r "经度") pfZero) &&
      !pfIsZero (safe_float (rowGet r "纬度") pfZero))).map
    (fun r => (safe_float (rowGet r "经度") pfZero, safe_float (rowGet r "纬度") pfZero))

/-- Source: the averaged object coordinates — each axis averaged
independently over `valid_coords`, with the fixed fallback pair
`(116.0, 40.0)` when no row has valid coordinates. -/
def avg_coords (rows : List Row) : PyFloat × PyFloat :=
  let vc := valid_coords rows
  if vc.isEmpty then (⟨116, 1⟩, ⟨40, 1⟩)
  else
    (pfDivNat (pfSum (vc.map (fun p => p.1))) vc.length,
     pfDivNat (pfSum (vc.map (fun p => p.2))) vc.length)

/-- Model of `json.dumps` (with `ensure_ascii=False`, default
separators) for the three-entry detail payloads.  Quotation marks and
backslashes in values are escaped; the cell values exercised here
contain neither. -/
def jsonEscL : List Char → List Char
  | [] => []
  | '\\' :: r => '\\' :: '\\' :: jsonEscL r
  | '"' :: r => '\\' :: '"' :: jsonEscL r
  | c :: r => c :: jsonEscL r

/-- A JSON string literal for a value. -/
def jsonStr (s : String) : String :=
  "\"" ++ String.mk (jsonEscL s.data) ++ "\""

/-- A three-entry JSON object in `json.dumps` layout. -/
def dumps3 (k1 v1 k2 v2 k3 v3 : String) : String :=
  "\x7b" ++ jsonStr k1 ++ ": " ++ jsonStr v1 ++ ", " ++
    jsonStr k2 ++ ": " ++ jsonStr v2 ++ ", " ++
    jsonStr k3 ++ ": " ++ jsonStr v3 ++ "\x7d"

/-- The monitored-object record (`object_data` in the source). -/
structure ObjectVo where
  id : String
  coamObjectCode : String
  coamObjectName : String
  coamObjectType : String
  coamObjectMechanism : String
  coamObjectRegion : String
  coamObjectProject : String
  coamObjectPosition : String
  coamObjectStatus : String
  coamUsable : Nat
  coamSysFlag : String
  coamSubjectType : String
  coamSubjectCode : String
  coamLongitude : String
  coamLatitude : String
  createBy : Int
  createTime : String
  updateBy : Int
  updateTime : String
  deriving DecidableEq

/-- The monitoring-point record (`point_data` in the source). -/
structure PointVo where
  id : String
  coamPointCode : String
  coamPointName : String
  coamPointStatus : String
  coamPointAlarm : String
  coamPointThreshold : String
  coamPointObjectCode : String
  coamPointRegion : String
  coamPointPosition : String
  coamUsable : Nat
  coamLongitude : String
  coamLatitude : String
  coamPointType : String
  extraField : String
  createBy : Int
  createTime : String
  updateBy : Int
  updateTime : String
  deriving DecidableEq

/-- The equipment record (`equipment_data` in the source). -/
structure EquipmentVo where
  id : String
  coamEquipName : String
  coamEquipCode : String
  coamDynamicEquipCode : String
  coamParentId : String
  coamEquipType : String
  coamManageCompany : String
  coamManufacturer : String
  coamModelnum : String
  coamSysFlag : String
  coamLocation : String
  coamEquipStatus : String
  coamDataSource : String
  coamIsMaintain : String
  coamExamineStatus : String
  coamProjectId : String
  coamMonitorObjectCode : String
  coamMonitorPointCode : String
  coamPointBindDate : String
  coamCmUsable : Nat
  deviceDetail : String
  productCode : String
  imei : String
  isSelfBuilt : String
  createBy : Int
  createTime : String
  updateBy : Int
  updateTime : String
  deriving DecidableEq

/-- The equipment-point relation record (`relation_data` in the source). -/
structure RelationVo where
  id : String
  coamEquipCode : String
  coamPointCode : String
  coamStatus : String
  coamAddtime : String
  coamUsable : Nat
  coamDescript : String
  createBy : Int
  createTime : String
  updateBy : Int
  updateTime : String
  deriving DecidableEq

/-- The three records one accepted row expands into. -/
structure RowTriple where
  point : PointVo
  equip : EquipmentVo
  rel : RelationVo
  deriving DecidableEq

/-- The final four-collection document (`result` in the source). -/
structure Result where
  objectPushVoList : List ObjectVo
  pointPushVoList : List PointVo
  equipmentPushVoList : List EquipmentVo
  equipRlPushVoList : List RelationVo
  deriving DecidableEq

/-- Source: construction of `object_data`.  Evaluation follows the dict
literal order: the managing-company default is read from the merged
configuration (raising `KeyError` when the key is absent) before the
first row's phone number is parsed (which can raise `ValueError`). -/
def mkObject (today now : String) (cfg : Config) (rows : List Row)
    (first : Row) : Except PyErr ObjectVo :=
  match cfg.manage_company with
  | none => .error .keyError
  | some mc =>
    match parse_phone (rowGetD first "手机号" "") with
    | none => .error .valueError
    | some ph =>
      let oc := object_code cfg
      let a := avg_coords rows
      .ok
        { id := generate_id today "OBJ" 1
          coamObjectCode := oc
          coamObjectName := cfg.object_name
          coamObjectType := cfg.object_type
          coamObjectMechanism := safe_str (rowGet first "施工单位") mc
          coamObjectRegion := cfg.region_code
          coamObjectProject := cfg.project_id
          coamObjectPosition := safe_str (rowGet first "施工区域") ""
          coamObjectStatus := "ENABLE"
          coamUsable := 0
          coamSysFlag := cfg.sys_flag
          coamSubjectType := cfg.subject_type
          coamSubjectCode := oc
          coamLongitude := fmt6 a.1
          coamLatitude := fmt6 a.2
          createBy := ph
          createTime := parse_datetime now (rowGetD first "拍摄时间" "")
          updateBy := ph
          updateTime := parse_datetime now (rowGetD first "拍摄时间" "") }

/-- Source: one iteration of the per-row loop, producing the point,
equipment and relation records for row `idx` (1-based).  `parse_phone`
is evaluated before the per-row managing-company default is read, so a
bad phone number raises `ValueError` before a missing configuration key
raises `KeyError`, as in the source order. -/
def mkRow (today now : String) (cfg : Config) (oc : String) (idx : Nat)
    (row : Row) : Except PyErr RowTriple :=
  let equip_code := safe_str (rowGet row "设备编号") ("EQUIP_" ++ pyStr idx)
  let point_code := oc ++ "_P" ++ pyZfill (pyStr idx) 3
  let create_time := parse_datetime now (rowGetD row "拍摄时间" "")
  match parse_phone (rowGetD row "手机号" "") with
  | none => .error .valueError
  | some phone =>
    let longitude := safe_str (rowGet row "经度") "0"
    let latitude := safe_str (rowGet row "纬度") "0"
    let altitude := safe_str (rowGet row "海拔") "0"
    let diameter := safe_str (rowGet row "管径直径") ""
    let coupling := safe_str (rowGet row "管箍") "无"
    let location := safe_str (rowGet row "安装位置") ("位置" ++ pyStr idx)
    match cfg.manage_company with
    | none => .error .keyError
    | some mc =>
      let company := safe_str (rowGet row "施工单位") mc
      .ok
        { point :=
            { id := generate_id today "POINT" idx
              coamPointCode := point_code
              coamPointName := location ++ "监测点"
              coamPointStatus := "ENABLE"
              coamPointAlarm := "是"
              coamPointThreshold := "是"
              coamPointObjectCode := oc
              coamPointRegion := cfg.region_code
              coamPointPosition := location
              coamUsable := 0
              coamLongitude := longitude
              coamLatitude := latitude
              coamPointType := cfg.subject_type
              extraField := dumps3 "altitude" altitude "pipelineDiameter" diameter "coupling" coupling
              createBy := phone
              createTime := create_time
              updateBy := phone
              updateTime := create_time }
          equip :=
            { id := generate_id today "EQUIP" idx
              coamEquipName := location ++ "监测设备"
              coamEquipCode := equip_code
              coamDynamicEquipCode := equip_code
              coamParentId := ""
              coamEquipType := cfg.equip_type
              coamManageCompany := company
              coamManufacturer := ""
              coamModelnum := ""
              coamSysFlag := cfg.sys_flag
              coamLocation := location
              coamEquipStatus := "equipStatus0"
              coamDataSource := "0"
              coamIsMaintain := "0"
              coamExamineStatus := "3"
              coamProjectId := cfg.project_id
              coamMonitorObjectCode := oc
              coamMonitorPointCode := point_code
              coamPointBindDate := create_time
              coamCmUsable := 0
              deviceDetail := dumps3 "pipelineDiameter" diameter "coupling" coupling "altitude" altitude
              productCode := cfg.product_code
              imei := equip_code
              isSelfBuilt := "0"
              createBy := phone
              createTime := create_time
              updateBy := phone
              updateTime := create_time }
          rel :=
            { id := generate_id today "REL" idx
              coamEquipCode := equip_code
              coamPointCode := point_code
              coamStatus := "1"
              coamAddtime := create_time
              coamUsable := 0
              coamDescript := "设备与点位绑定"
              createBy := phone
              createTime := create_time
              updateBy := phone
              updateTime := create_time } }

/-- Source: the `for idx, row in enumerate(equipment_list, 1)` loop.
Rows are expanded in order; the first raised exception aborts the run. -/
def buildRows (today now : String) (cfg : Config) (oc : String) :
    Nat → List Row → Except PyErr (List RowTriple)
  | _, [] => .ok []
  | idx, r :: rest =>
    match mkRow today now cfg oc idx r with
    | .error e => .error e
    | .ok t =>
      match buildRows today now cfg oc (idx + 1) rest with
      | .error e => .error e
      | .ok ts => .ok (t :: ts)

/-- Source: `csv_to_json(csv_file, output_file, config)`.
`decodes` is the ordered outcome of the per-encoding read attempts.
`.ok none` models the no-valid-rows diagnostic path that returns
without writing an output file; `.ok (some result)` models a completed
run that writes `result`; `.error e` models an uncaught exception
(in which case nothing is written either). -/
def csv_to_json (today now : String) (decodes : List (Option (List Row)))
    (config : ConfigOverride) : Except PyErr (Option Result) :=
  let cfg := updateConfig default_config config
  match readRows decodes with
  | [] => .ok none
  | first :: rest =>
    let oc := object_code cfg
    match mkObject today now cfg (first :: rest) first with
    | .error e => .error e
    | .ok obj =>
      match buildRows today now cfg oc 1 (first :: rest) with
      | .error e => .error e
      | .ok ts =>
        .ok (some
          { objectPushVoList := [obj]
            pointPushVoList := ts.map (fun t => t.point)
            equipmentPushVoList := ts.map (fun t => t.equip)
            equipRlPushVoList := ts.map (fun t => t.rel) })

/-- The domain of the `int()` model: after stripping, an optional sign
followed by a non-empty digit run (what the spec calls a numeric
remainder). -/
def pyNumeric (l : List Char) : Bool :=
  match pyStripL l with
  | '+' :: r => isDigitL r
  | '-' :: r => isDigitL r
  | r => isDigitL r

/-! Concrete fixtures used to instantiate the theorems: a small run with
three accepted rows (coordinates (10,20), (30,40), (0,0)), one blank-key
row, and a caller configuration that does supply the managing company. -/

/-- Row with full optional data and coordinates (10, 20). -/
def exRowA : Row :=
  [("设备编号", "DEV-A"), ("经度", "10"), ("纬度", "20"), ("安装位置", "东门"),
   ("手机号", "176****5751"), ("拍摄时间", "2025/9/25 10:49"), ("施工单位", "施工一队")]

/-- Row with coordinates (30, 40) and a key that needs trimming. -/
def exRowB : Row := [("设备编号", " DEV-B "), ("经度", "30"), ("纬度", "40")]

/-- Row with zero coordinates (excluded from the average). -/
def exRowZ : Row := [("设备编号", "DEV-Z"), ("经度", "0"), ("纬度", "0")]

/-- Row whose primary key is blank after trimming (filtered out). -/
def exRowBlank : Row := [("设备编号", "  "), ("经度", "50"), ("纬度", "60")]

/-- Row with a key but no coordinate columns at all. -/
def exRowBare : Row := [("设备编号", "DEV-C")]

/-- A caller configuration that only supplies the managing company. -/
def cfgWithCompany : ConfigOverride :=
  { sys_flag := none, object_type := none, region_code := none
    project_id := none, equip_type := none, product_code := none
    object_name := none, subject_type := none, manage_company := some "华润燃气" }

/-- Decode outcomes for the main fixture run: the first candidate
encoding fails, the second yields four raw rows. -/
def exDecodes : List (Option (List Row)) :=
  [none, some [exRowA, exRowB, exRowZ, exRowBlank]]

/-- Decode outcomes for a run with no valid coordinates. -/
def exDecodesBare : List (Option (List Row)) := [some [exRowBare]]

/-- Extract the document of a completed run (dummy empty document on the
other outcomes; used only to name concrete results in witnesses). -/
def theResult : Except PyErr (Option Result) → Result
  | .ok (some r) => r
  | _ => ⟨[], [], [], []⟩

/-- The main fixture run. -/
def exRun : Except PyErr (Option Result) :=
  csv_to_json "20250101" "2025-01-01 00:00:00" exDecodes cfgWithCompany

/-- The document of the main fixture run. -/
def exRes : Result := theResult exRun

/-- The no-valid-coordinates fixture run. -/
def exRunBare : Except PyErr (Option Result) :=
  csv_to_json "20250101" "2025-01-01 00:00:00" exDecodesBare cfgWithCompany

/-- The document of the no-valid-coordinates fixture run. -/
def exResBare : Result := theResult exRunBare

/-! Arithmetic facts about the decimal rendering and padding helpers. -/

/-- The digit character of `d < 10` has code `48 + d`. -/
theorem digitCh_toNat (d : Nat) (h : d < 10) : (digitCh d).toNat = 48 + d := by
  interval_cases d <;> rfl

/-- Folding the digit-accumulation step from an arbitrary accumulator. -/
theorem foldl_digits_init (l : List Char) (a : Nat) :
    l.foldl (fun a c => a * 10 + (c.toNat - 48)) a =
      a * 10 ^ l.length + digitsToNat l := by
  induction l generalizing a with
  | nil => simp [digitsToNat]
  | cons c t ih =>
    simp only [List.foldl_cons, digitsToNat, List.length_cons]
    rw [ih, ih (0 * 10 + (c.toNat - 48))]
    ring

/-- `digitsToNat` over an append. -/
theorem digitsToNat_append (xs ys : List Char) :
    digitsToNat (xs ++ ys) = digitsToNat xs * 10 ^ ys.length + digitsToNat ys := by
  unfold digitsToNat
  rw [List.foldl_append, foldl_digits_init]
  rfl

/-- With enough fuel, the decimal rendering round-trips. -/
theorem natDigitsAux_spec : ∀ fuel n, n < fuel →
    digitsToNat (natDigitsAux fuel n) = n := by
  intro fuel
  induction fuel with
  | zero => intro n h; omega
  | succ m ih =>
    intro n h
    unfold natDigitsAux
    by_cases h10 : n < 10
    · simp only [if_pos h10, digitsToNat, List.foldl_cons, List.foldl_nil]
      rw [digitCh_toNat n h10]
      omega
    · simp only [if_neg h10]
      rw [digitsToNat_append]
      have hd : n / 10 < m := by
        have := Nat.div_lt_self (by omega : 0 < n) (by omega : 1 < 10)
        omega
      rw [ih (n / 10) hd]
      simp only [List.length_cons, List.length_nil, digitsToNat, List.foldl_cons, List.foldl_nil]
      rw [digitCh_toNat (n % 10) (Nat.mod_lt n (by omega))]
      omega

/-- The decimal rendering of `n` evaluates back to `n`. -/
theorem digitsToNat_natDigits (n : Nat) : digitsToNat (natDigits n) = n :=
  natDigitsAux_spec (n+1) n (Nat.lt_succ_self n)

/-- Leading zeros do not change the numeric value. -/
theorem digitsToNat_replicate_zero (k : Nat) (l : List Char) :
    digitsToNat (List.replicate k '0' ++ l) = digitsToNat l := by
  induction k with
  | zero => simp
  | succ m ih =>
    simp only [List.replicate_succ, List.cons_append, digitsToNat, List.foldl_cons] at *
    simpa using ih

/-- A zero-padded decimal rendering evaluates back to the number. -/
theorem digitsToNat_zfill_natDigits (w n : Nat) :
    digitsToNat (zfillL w (natDigits n)) = n := by
  unfold zfillL
  rw [digitsToNat_replicate_zero, digitsToNat_natDigits]

/-- Zero-padded decimal renderings of distinct numbers are distinct. -/
theorem zfill_natDigits_inj (w a b : Nat)
    (h : zfillL w (natDigits a) = zfillL w (natDigits b)) : a = b := by
  have := congrArg digitsToNat h
  rwa [digitsToNat_zfill_natDigits, digitsToNat_zfill_natDigits] at this

/-- With enough fuel, numbers below `10 ^ (k+1)` render in at most `k+1`
digits. -/
theorem natDigitsAux_length_le : ∀ fuel n k, n < fuel → n < 10 ^ (k+1) →
    (natDigitsAux fuel n).length ≤ k + 1 := by
  intro fuel
  induction fuel with
  | zero => intro n k h; omega
  | succ m ih =>
    intro n k h hk
    unfold natDigitsAux
    by_cases h10 : n < 10
    · simp [if_pos h10]
    · simp only [if_neg h10, List.length_append, List.length_cons, List.length_nil]
      have hd : n / 10 < m := by
        have := Nat.div_lt_self (by omega : 0 < n) (by omega : 1 < 10)
        omega
      cases k with
      | zero => simp at hk; omega
      | succ k2 =>
        have : n / 10 < 10 ^ (k2 + 1) := by
          apply Nat.div_lt_of_lt_mul
          rw [← pow_succ']
          exact hk
        have := ih (n / 10) k2 hd this
        omega

/-- The padded field has exactly width `w` when the number fits. -/
theorem zfill_natDigits_length (w n : Nat) (h : (natDigits n).length ≤ w) :
    (zfillL w (natDigits n)).length = w := by
  unfold zfillL
  simp only [List.length_append, List.length_replicate]
  omega

/-- Numbers up to 999 render in at most three digits. -/
theorem natDigits_length_le_three (n : Nat) (h : n ≤ 999) :
    (natDigits n).length ≤ 3 := by
  exact natDigitsAux_length_le (n+1) n 2 (Nat.lt_succ_self n) (by omega)

/-- String-level injectivity of the padded index rendering. -/
theorem pyZfill_pyStr_inj (w a b : Nat)
    (h : pyZfill (pyStr a) w = pyZfill (pyStr b) w) : a = b := by
  unfold pyZfill pyStr at h
  apply zfill_natDigits_inj w
  exact congrArg String.data h

/-! Structural facts about the pipeline. -/

/-- Fields of the records a successful per-row expansion produces:
point, equipment and relation all carry the shared point code built from
the row index, the relation repeats the equipment code, both per-row
records reference the object code, and the equipment code (with its
dynamic-code and device-identity mirrors) is the `safe_str` of the
source cell. -/
theorem mkRow_ok_fields (today now : String) (cfg : Config) (oc : String)
    (idx : Nat) (row : Row) (tr : RowTriple)
    (h : mkRow today now cfg oc idx row = .ok tr) :
    tr.point.coamPointCode = oc ++ "_P" ++ pyZfill (pyStr idx) 3 ∧
    tr.rel.coamPointCode = oc ++ "_P" ++ pyZfill (pyStr idx) 3 ∧
    tr.equip.coamMonitorPointCode = oc ++ "_P" ++ pyZfill (pyStr idx) 3 ∧
    tr.rel.coamEquipCode = tr.equip.coamEquipCode ∧
    tr.point.coamPointObjectCode = oc ∧
    tr.equip.coamMonitorObjectCode = oc ∧
    tr.equip.coamEquipCode = safe_str (rowGet row "设备编号") ("EQUIP_" ++ pyStr idx) ∧
    tr.equip.coamDynamicEquipCode = tr.equip.coamEquipCode ∧
    tr.equip.imei = tr.equip.coamEquipCode := by
  simp only [mkRow] at h
  split at h
  · exact absurd h (by simp)
  · split at h
    · exact absurd h (by simp)
    · injection h with h
      subst h
      refine ⟨rfl, rfl, rfl, rfl, rfl, rfl, rfl, rfl, rfl⟩

/-- A successful loop pass yields one triple per row. -/
theorem buildRows_ok_length (today now : String) (cfg : Config) (oc : String) :
    ∀ (rows : List Row) (k : Nat) (ts : List RowTriple),
      buildRows today now cfg oc k rows = .ok ts → ts.length = rows.length := by
  intro rows
  induction rows with
  | nil => intro k ts h; simp only [buildRows] at h; injection h with h; subst h; rfl
  | cons r rest ih =>
    intro k ts h
    simp only [buildRows] at h
    split at h
    · exact absurd h (by simp)
    · split at h
      · exact absurd h (by simp)
      · injection h with h
        subst h
        simp only [List.length_cons]
        rw [ih (k+1) _ (by assumption)]

/-- In a successful loop pass, the `i`-th triple is the expansion of the
`i`-th row at index `k + i`. -/
theorem buildRows_ok_get (today now : String) (cfg : Config) (oc : String) :
    ∀ (rows : List Row) (k : Nat) (ts : List RowTriple),
      buildRows today now cfg oc k rows = .ok ts →
      ∀ i (hi : i < rows.length) (hi' : i < ts.length),
        mkRow today now cfg oc (k + i) (rows.get ⟨i, hi⟩) = .ok (ts.get ⟨i, hi'⟩) := by
  intro rows
  induction rows with
  | nil => intro k ts h i hi hi2; simp at hi
  | cons r rest ih =>
    intro k ts h i hi hi'
    simp only [buildRows] at h
    split at h
    · exact absurd h (by simp)
    · rename_i t ht
      split at h
      · exact absurd h (by simp)
      · rename_i ts2 hts2
        injection h with h
        subst h
        cases i with
        | zero => simpa using ht
        | succ j =>
          have := ih (k+1) ts2 hts2 j (by simpa using hi) (by simpa using hi')
          simpa [Nat.add_comm, Nat.add_assoc, Nat.add_left_comm] using this

/-- Fields of a successfully built object record: the object code, the
rendered averaged coordinates, and the managing-company fallback read
from the merged configuration. -/
theorem mkObject_ok_fields (today now : String) (cfg : Config)
    (rows : List Row) (first : Row) (obj : ObjectVo)
    (h : mkObject today now cfg rows first = .ok obj) :
    obj.coamObjectCode = object_code cfg ∧
    obj.coamLongitude = fmt6 (avg_coords rows).1 ∧
    obj.coamLatitude = fmt6 (avg_coords rows).2 ∧
    (∃ mc, cfg.manage_company = some mc ∧
      obj.coamObjectMechanism = safe_str (rowGet first "施工单位") mc) := by
  simp only [mkObject] at h
  split at h
  · exact absurd h (by simp)
  · rename_i mc hmc
    split at h
    · exact absurd h (by simp)
    · injection h with h
      subst h
      exact ⟨rfl, rfl, rfl, mc, hmc, rfl⟩

/-- Inversion of a completed run: the accepted rows are non-empty, the
object and the triples were built successfully, and the four collections
are exactly the singleton object and the three mapped projections. -/
theorem csv_to_json_ok_inv (today now : String)
    (decodes : List (Option (List Row))) (config : ConfigOverride) (res : Result)
    (h : csv_to_json today now decodes config = .ok (some res)) :
    ∃ first rest obj ts,
      readRows decodes = first :: rest ∧
      mkObject today now (updateConfig default_config config) (first :: rest) first = .ok obj ∧
      buildRows today now (updateConfig default_config config)
        (object_code (updateConfig default_config config)) 1 (first :: rest) = .ok ts ∧
      res.objectPushVoList = [obj] ∧
      res.pointPushVoList = ts.map (fun t => t.point) ∧
      res.equipmentPushVoList = ts.map (fun t => t.equip) ∧
      res.equipRlPushVoList = ts.map (fun t => t.rel) := by
  simp only [csv_to_json] at h
  split at h
  · exact absurd h (by simp)
  · rename_i first rest hrr
    split at h
    · exact absurd h (by simp)
    · rename_i obj hobj
      split at h
      · exact absurd h (by simp)
      · rename_i ts hts
        injection h with h
        injection h with h
        subst h
        exact ⟨first, rest, obj, ts, hrr, hobj, hts, rfl, rfl, rfl, rfl⟩

/-- Every accepted row passed the primary-key filter. -/
theorem readRows_keyOk : ∀ (decodes : List (Option (List Row))) (r : Row),
    r ∈ readRows decodes → keyOk r = true := by
  intro decodes
  induction decodes with
  | nil => intro r h; simp [readRows] at h
  | cons d rest ih =>
    intro r h
    cases d with
    | none => exact ih r h
    | some rows =>
      simp only [readRows] at h
      exact List.of_mem_filter h

/-- When every candidate encoding fails, no rows are accepted. -/
theorem readRows_allFail : ∀ (decodes : List (Option (List Row))),
    (∀ x ∈ decodes, x = none) → readRows decodes = [] := by
  intro decodes
  induction decodes with
  | nil => intro; rfl
  | cons d rest ih =>
    intro h
    have hd := h d (by simp)
    subst hd
    exact ih (fun x hx => h x (by simp [hx]))

/-- The accepted rows are exactly the key-filtered rows of the first
successful decode attempt. -/
theorem readRows_eq_filter_firstDecode : ∀ (decodes : List (Option (List Row))),
    readRows decodes =
      (match firstDecode decodes with
       | some rows => rows.filter keyOk
       | none => []) := by
  intro decodes
  induction decodes with
  | nil => rfl
  | cons d rest ih =>
    cases d with
    | none => simpa [readRows, firstDecode] using ih
    | some rows => rfl

/-- Strings strip to empty exactly when their character list strips to
nil. -/
theorem pyStrip_eq_empty_iff (s : String) : pyStrip s = "" ↔ pyStripL s.data = [] := by
  constructor
  · intro h
    exact congrArg String.data h
  · intro h
    unfold pyStrip
    rw [h]

/-! The claims. -/

/-- C1: the spec promises a built-in default for every configuration
knob, the managing company included, and that a run with no (or a
partial) caller configuration succeeds using the defaults.  The code
violates this: `default_config` has no `'manage_company'` entry, yet
`csv_to_json` reads `default_config['manage_company']` unconditionally
while building the object record, so any run with at least one accepted
row and no caller-supplied managing company raises `KeyError` — here
evaluated on a one-row input with no caller configuration and with the
first row's construction-unit cell absent, where the claim promises a
successful fallback to the built-in default. -/
theorem claim_C1_keyError_on_default_config :
    csv_to_json "20250101" "2025-01-01 00:00:00" exDecodesBare noConfig =
      .error .keyError := by decide

/-- C3: a completed run has exactly one object record, and the point,
equipment and relation collections all have length equal to the number
of accepted rows. -/
theorem claim_C3_collection_lengths (today now : String)
    (decodes : List (Option (List Row))) (config : ConfigOverride) (res : Result)
    (h : csv_to_json today now decodes config = .ok (some res)) :
    res.objectPushVoList.length = 1 ∧
    res.pointPushVoList.length = (readRows decodes).length ∧
    res.equipmentPushVoList.length = (readRows decodes).length ∧
    res.equipRlPushVoList.length = (readRows decodes).length := by
  obtain ⟨first, rest, obj, ts, hrr, hobj, hts, ho, hp, he, hr⟩ :=
    csv_to_json_ok_inv today now decodes config res h
  have hlen := buildRows_ok_length today now _ _ _ _ _ hts
  rw [ho, hp, he, hr, hrr]
  simp [hlen]

/-- C3 witness: the fixture run (four raw rows, one with a blank key)
yields one object and three elements in each per-row collection. -/
theorem claim_C3_witness :
    exRes.objectPushVoList.length = 1 ∧
    exRes.pointPushVoList.length = 3 ∧
    exRes.equipmentPushVoList.length = 3 ∧
    exRes.equipRlPushVoList.length = 3 := by
  have h : csv_to_json "20250101" "2025-01-01 00:00:00" exDecodes cfgWithCompany =
      .ok (some exRes) := by decide
  obtain ⟨h1, h2, h3, h4⟩ :=
    claim_C3_collection_lengths "20250101" "2025-01-01 00:00:00" exDecodes cfgWithCompany exRes h
  exact ⟨h1, h2.trans (by decide), h3.trans (by decide), h4.trans (by decide)⟩

/-- C8: when no rows survive (in particular when every candidate
encoding fails), the run takes the diagnostic path and returns without
an output document (`.ok none` — the file write happens only on the
`.ok (some _)` path of the model). -/
theorem claim_C8_no_rows_no_output (today now : String)
    (decodes : List (Option (List Row))) (config : ConfigOverride) :
    (readRows decodes = [] → csv_to_json today now decodes config = .ok none) ∧
    ((∀ x ∈ decodes, x = none) → csv_to_json today now decodes config = .ok none) := by
  constructor
  · intro he
    simp only [csv_to_json, he]
  · intro h
    simp only [csv_to_json, readRows_allFail decodes h]

/-- C8 witness: a run whose two decode attempts both fail aborts with no
document. -/
theorem claim_C8_witness :
    csv_to_json "20250101" "2025-01-01 00:00:00" [none, none] noConfig = .ok none :=
  (claim_C8_no_rows_no_output "20250101" "2025-01-01 00:00:00" [none, none] noConfig).2
    (by decide)

/-- C4: every accepted row has a non-blank primary key; a row whose key
is missing, empty, or blank after trimming is never accepted (and the
key test is exactly blankness of the trimmed cell); the accepted rows
are the key-filtered rows of the first successful decode pass; and each
per-row output collection of a completed run has exactly one element
per accepted row, so excluded rows contribute nothing anywhere. -/
theorem claim_C4_blank_key_rows_filtered (decodes : List (Option (List Row))) :
    (∀ r ∈ readRows decodes, keyOk r = true) ∧
    (∀ r : Row, keyOk r = false → r ∉ readRows decodes) ∧
    (∀ r : Row,
      (rowGet r "设备编号" = none → keyOk r = false) ∧
      (∀ v, rowGet r "设备编号" = some v → (keyOk r = false ↔ pyStrip v = ""))) ∧
    (readRows decodes =
      match firstDecode decodes with
      | some rows => rows.filter keyOk
      | none => []) ∧
    (∀ today now config res,
      csv_to_json today now decodes config = .ok (some res) →
      res.pointPushVoList.length = (readRows decodes).length ∧
      res.equipmentPushVoList.length = (readRows decodes).length ∧
      res.equipRlPushVoList.length = (readRows decodes).length) := by
  refine ⟨readRows_keyOk decodes, ?_, ?_, readRows_eq_filter_firstDecode decodes, ?_⟩
  · intro r hf hmem
    exact absurd (readRows_keyOk decodes r hmem) (by simp [hf])
  · intro r
    constructor
    · intro hn
      simp [keyOk, hn]
    · intro v hv
      simp only [keyOk, hv]
      by_cases hve : v = ""
      · subst hve
        simp
        rfl
      · by_cases hsv : pyStrip v = ""
        · simp [hsv, hve]
        · simp [hsv, hve]
  · intro today now config res h
    exact (claim_C3_collection_lengths today now decodes config res h).2

/-- C4 witness: the blank-key fixture row fails the key test, is not
among the accepted rows of the fixture run, and the fixture run's point
collection has one element per accepted row (three, not four). -/
theorem claim_C4_witness :
    keyOk exRowBlank = false ∧
    exRowBlank ∉ readRows exDecodes ∧
    (readRows exDecodes).length = 3 ∧
    exRes.pointPushVoList.length = 3 := by
  have hf : keyOk exRowBlank = false := by decide
  have h : csv_to_json "20250101" "2025-01-01 00:00:00" exDecodes cfgWithCompany =
      .ok (some exRes) := by decide
  refine ⟨hf, (claim_C4_blank_key_rows_filtered exDecodes).2.1 exRowBlank hf, by decide, ?_⟩
  exact (((claim_C4_blank_key_rows_filtered exDecodes).2.2.2.2 "20250101"
    "2025-01-01 00:00:00" cfgWithCompany exRes h).1).trans (by decide)

/-- Point codes embed the row index injectively. -/
theorem point_code_inj (oc : String) (a b : Nat)
    (h : oc ++ "_P" ++ pyZfill (pyStr a) 3 = oc ++ "_P" ++ pyZfill (pyStr b) 3) : a = b := by
  apply pyZfill_pyStr_inj 3
  have hd := congrArg String.data h
  rw [String.data_append, String.data_append, String.data_append, String.data_append] at hd
  have h2 := List.append_cancel_left (List.append_cancel_left
    (by simpa [List.append_assoc] using hd :
      oc.data ++ ("_P".data ++ (pyZfill (pyStr a) 3).data) =
        oc.data ++ ("_P".data ++ (pyZfill (pyStr b) 3).data)))
  exact congrArg String.mk h2

/-- C2: in a completed run, the i-th relation carries the same point
code as the i-th point and the i-th equipment record's
monitor-point-code, the same equipment code as the i-th equipment
record, every point and equipment record references the object code of
the run's single object, and point codes are pairwise distinct. -/
theorem claim_C2_one_one_one (today now : String)
    (decodes : List (Option (List Row))) (config : ConfigOverride) (res : Result)
    (h : csv_to_json today now decodes config = .ok (some res)) :
    (∀ i (hp : i < res.pointPushVoList.length) (he : i < res.equipmentPushVoList.length)
        (hr : i < res.equipRlPushVoList.length),
      (res.equipRlPushVoList.get ⟨i, hr⟩).coamPointCode =
        (res.pointPushVoList.get ⟨i, hp⟩).coamPointCode ∧
      (res.equipmentPushVoList.get ⟨i, he⟩).coamMonitorPointCode =
        (res.pointPushVoList.get ⟨i, hp⟩).coamPointCode ∧
      (res.equipRlPushVoList.get ⟨i, hr⟩).coamEquipCode =
        (res.equipmentPushVoList.get ⟨i, he⟩).coamEquipCode ∧
      (∀ obj ∈ res.objectPushVoList,
        (res.pointPushVoList.get ⟨i, hp⟩).coamPointObjectCode = obj.coamObjectCode ∧
        (res.equipmentPushVoList.get ⟨i, he⟩).coamMonitorObjectCode = obj.coamObjectCode)) ∧
    (∀ i j (hp : i < res.pointPushVoList.length) (hq : j < res.pointPushVoList.length),
      i ≠ j →
      (res.pointPushVoList.get ⟨i, hp⟩).coamPointCode ≠
        (res.pointPushVoList.get ⟨j, hq⟩).coamPointCode) := by
  obtain ⟨first, rest, obj0, ts, hrr, hobj, hts, ho, hp0, he0, hr0⟩ :=
    csv_to_json_ok_inv today now decodes config res h
  obtain ⟨oco, olon, olat, -⟩ := mkObject_ok_fields today now _ _ _ _ hobj
  have hlen := buildRows_ok_length today now _ _ _ _ _ hts
  constructor
  · intro i hp he hr
    have hits : i < ts.length := by rw [hp0] at hp; simpa using hp
    have hirows : i < (first :: rest).length := by rw [← hlen]; exact hits
    have hmk := buildRows_ok_get today now _ _ _ 1 ts hts i hirows hits
    obtain ⟨hpc, hrc, hec, hre, hpo, heo, -, -, -⟩ :=
      mkRow_ok_fields today now _ _ _ _ _ hmk
    simp only [List.get_eq_getElem] at hpc hrc hec hre hpo heo
    simp only [List.get_eq_getElem, hp0, he0, hr0, ho, List.getElem_map]
    refine ⟨hrc.trans hpc.symm, hec.trans hpc.symm, hre, ?_⟩
    intro obj hobj2
    simp at hobj2
    subst hobj2
    exact ⟨hpo.trans oco.symm, heo.trans oco.symm⟩
  · intro i j hp hq hij
    have hits : i < ts.length := by rw [hp0] at hp; simpa using hp
    have hjts : j < ts.length := by rw [hp0] at hq; simpa using hq
    have hirows : i < (first :: rest).length := by rw [← hlen]; exact hits
    have hjrows : j < (first :: rest).length := by rw [← hlen]; exact hjts
    obtain ⟨hpci, -⟩ :=
      mkRow_ok_fields today now _ _ _ _ _
        (buildRows_ok_get today now _ _ _ 1 ts hts i hirows hits)
    obtain ⟨hpcj, -⟩ :=
      mkRow_ok_fields today now _ _ _ _ _
        (buildRows_ok_get today now _ _ _ 1 ts hts j hjrows hjts)
    simp only [List.get_eq_getElem] at hpci hpcj
    simp only [List.get_eq_getElem, hp0, List.getElem_map]
    rw [hpci, hpcj]
    intro hcontra
    have := point_code_inj _ _ _ hcontra
    omega

/-- C2 witness: on the fixture run, row 1's relation, point and
equipment agree, and points 1 and 2 have distinct codes. -/
theorem claim_C2_witness :
    (exRes.equipRlPushVoList.get ⟨0, by decide⟩).coamPointCode =
      (exRes.pointPushVoList.get ⟨0, by decide⟩).coamPointCode ∧
    (exRes.equipRlPushVoList.get ⟨0, by decide⟩).coamEquipCode =
      (exRes.equipmentPushVoList.get ⟨0, by decide⟩).coamEquipCode ∧
    (exRes.pointPushVoList.get ⟨0, by decide⟩).coamPointCode ≠
      (exRes.pointPushVoList.get ⟨1, by decide⟩).coamPointCode := by
  have h : csv_to_json "20250101" "2025-01-01 00:00:00" exDecodes cfgWithCompany =
      .ok (some exRes) := by decide
  obtain ⟨hcorr, hdist⟩ :=
    claim_C2_one_one_one "20250101" "2025-01-01 00:00:00" exDecodes cfgWithCompany exRes h
  obtain ⟨h1, h2, h3, h4⟩ := hcorr 0 (by decide) (by decide) (by decide)
  exact ⟨h1, h3, hdist 0 1 (by decide) (by decide) (by decide)⟩

/-- C10: for every accepted row, the equipment record's equipment code
(with its dynamic-code and device-identity mirrors) is the trimmed
source equipment-identifier cell: the cell is present and non-blank
(the reader guarantees it), so the generated `EQUIP_{index}` fallback
branch of `safe_str` is never taken. -/
theorem claim_C10_equip_code_from_source (today now : String)
    (decodes : List (Option (List Row))) (config : ConfigOverride) (res : Result)
    (h : csv_to_json today now decodes config = .ok (some res)) :
    ∀ i (hi : i < res.equipmentPushVoList.length) (hr : i < (readRows decodes).length),
      ∃ v, rowGet ((readRows decodes).get ⟨i, hr⟩) "设备编号" = some v ∧
        v ≠ "" ∧ pyStrip v ≠ "" ∧
        (res.equipmentPushVoList.get ⟨i, hi⟩).coamEquipCode = pyStrip v ∧
        (res.equipmentPushVoList.get ⟨i, hi⟩).coamDynamicEquipCode = pyStrip v ∧
        (res.equipmentPushVoList.get ⟨i, hi⟩).imei = pyStrip v := by
  obtain ⟨first, rest, obj0, ts, hrr, hobj, hts, ho, hp0, he0, hr0⟩ :=
    csv_to_json_ok_inv today now decodes config res h
  have hlen := buildRows_ok_length today now _ _ _ _ _ hts
  intro i hi hr2
  have hits : i < ts.length := by rw [he0] at hi; simpa using hi
  have hirows : i < (first :: rest).length := by rw [← hlen]; exact hits
  have hmk := buildRows_ok_get today now _ _ _ 1 ts hts i hirows hits
  obtain ⟨-, -, -, -, -, -, hcode, hdyn, himei⟩ :=
    mkRow_ok_fields today now _ _ _ _ _ hmk
  have hmem : (first :: rest).get ⟨i, hirows⟩ ∈ readRows decodes := by
    rw [hrr]
    exact List.get_mem _ _ _
  have hkey := readRows_keyOk decodes _ hmem
  cases hvv : rowGet ((first :: rest).get ⟨i, hirows⟩) "设备编号" with
  | none =>
    rw [keyOk, hvv] at hkey
    exact absurd hkey (by simp)
  | some v =>
    rw [keyOk, hvv] at hkey
    simp only [Bool.and_eq_true, ne_eq, decide_eq_true_eq] at hkey
    refine ⟨v, ?_, hkey.1, hkey.2, ?_, ?_, ?_⟩
    · simp only [List.get_eq_getElem, hrr]
      simp only [List.get_eq_getElem] at hvv
      exact hvv
    · simp only [List.get_eq_getElem] at hcode hvv ⊢
      simp only [he0, List.getElem_map]
      rw [hcode, hvv]
      simp [safe_str, hkey.1]
    · simp only [List.get_eq_getElem] at hcode hdyn hvv ⊢
      simp only [he0, List.getElem_map]
      rw [hdyn, hcode, hvv]
      simp [safe_str, hkey.1]
    · simp only [List.get_eq_getElem] at hcode himei hvv ⊢
      simp only [he0, List.getElem_map]
      rw [himei, hcode, hvv]
      simp [safe_str, hkey.1]

/-- C10 witness: the fixture's second accepted row has cell `" DEV-B "`,
and its equipment code, dynamic code and device identity are all the
trimmed `"DEV-B"`. -/
theorem claim_C10_witness :
    (exRes.equipmentPushVoList.get ⟨1, by decide⟩).coamEquipCode = "DEV-B" ∧
    (exRes.equipmentPushVoList.get ⟨1, by decide⟩).coamDynamicEquipCode = "DEV-B" ∧
    (exRes.equipmentPushVoList.get ⟨1, by decide⟩).imei = "DEV-B" := by
  have h : csv_to_json "20250101" "2025-01-01 00:00:00" exDecodes cfgWithCompany =
      .ok (some exRes) := by decide
  obtain ⟨v, hv, hne, hsne, hc, hd, hm⟩ :=
    claim_C10_equip_code_from_source "20250101" "2025-01-01 00:00:00" exDecodes cfgWithCompany
      exRes h 1 (by decide) (by decide)
  have hveq : v = " DEV-B " := by
    have : rowGet ((readRows exDecodes).get ⟨1, by decide⟩) "设备编号" = some " DEV-B " := by decide
    exact Option.some.inj (this ▸ hv.symm)
  subst hveq
  exact ⟨hc.trans (by decide), hd.trans (by decide), hm.trans (by decide)⟩

/-- C5: the object's coordinates average each axis independently over
exactly the rows whose two coordinates both normalize (via the
safe-number normalizer with default 0) to non-zero, rendered with six
decimal places; when no row qualifies the fixed fallback pair
(116.0, 40.0) is used, with no division by zero. -/
theorem claim_C5_coordinate_averaging (today now : String)
    (decodes : List (Option (List Row))) (config : ConfigOverride) (res : Result)
    (h : csv_to_json today now decodes config = .ok (some res)) :
    ∀ obj ∈ res.objectPushVoList,
      (valid_coords (readRows decodes) = [] →
        obj.coamLongitude = "116.000000" ∧ obj.coamLatitude = "40.000000") ∧
      (valid_coords (readRows decodes) ≠ [] →
        obj.coamLongitude =
          fmt6 (pfDivNat (pfSum ((valid_coords (readRows decodes)).map Prod.fst))
            (valid_coords (readRows decodes)).length) ∧
        obj.coamLatitude =
          fmt6 (pfDivNat (pfSum ((valid_coords (readRows decodes)).map Prod.snd))
            (valid_coords (readRows decodes)).length)) ∧
      valid_coords (readRows decodes) =
        ((readRows decodes).filter (fun r =>
            !pfIsZero (safe_float (rowGet r "经度") pfZero) &&
            !pfIsZero (safe_float (rowGet r "纬度") pfZero))).map
          (fun r => (safe_float (rowGet r "经度") pfZero, safe_float (rowGet r "纬度") pfZero)) := by
  obtain ⟨first, rest, obj0, ts, hrr, hobj, hts, ho, hp0, he0, hr0⟩ :=
    csv_to_json_ok_inv today now decodes config res h
  obtain ⟨oco, olon, olat, -⟩ := mkObject_ok_fields today now _ _ _ _ hobj
  intro obj hmem
  rw [ho] at hmem
  simp at hmem
  subst hmem
  refine ⟨?_, ?_, rfl⟩
  · intro hvc
    rw [hrr] at hvc
    have havg : avg_coords (first :: rest) = (⟨116, 1⟩, ⟨40, 1⟩) := by
      unfold avg_coords
      simp [hvc]
    rw [olon, olat, havg]
    exact ⟨by decide, by decide⟩
  · intro hvc
    rw [hrr] at hvc
    have hne : (valid_coords (first :: rest)).isEmpty = false := by
      cases hvce : valid_coords (first :: rest) with
      | nil => exact absurd hvce hvc
      | cons a l => rfl
    have havg : avg_coords (first :: rest) =
        (pfDivNat (pfSum ((valid_coords (first :: rest)).map (fun p => p.1)))
           (valid_coords (first :: rest)).length,
         pfDivNat (pfSum ((valid_coords (first :: rest)).map (fun p => p.2)))
           (valid_coords (first :: rest)).length) := by
      unfold avg_coords
      simp only [hne]
      simp
    rw [olon, olat, havg, hrr]
    exact ⟨rfl, rfl⟩

/-- C5 witness: the fixture rows carry coordinates (10,20), (30,40) and
(0,0), and the object's coordinates are `20.000000` / `30.000000`; the
bare fixture has no valid coordinates and falls back to `116.000000` /
`40.000000`. -/
theorem claim_C5_witness :
    (exRes.objectPushVoList.get ⟨0, by decide⟩).coamLongitude = "20.000000" ∧
    (exRes.objectPushVoList.get ⟨0, by decide⟩).coamLatitude = "30.000000" ∧
    (exResBare.objectPushVoList.get ⟨0, by decide⟩).coamLongitude = "116.000000" ∧
    (exResBare.objectPushVoList.get ⟨0, by decide⟩).coamLatitude = "40.000000" := by
  have h : csv_to_json "20250101" "2025-01-01 00:00:00" exDecodes cfgWithCompany =
      .ok (some exRes) := by decide
  have hb : csv_to_json "20250101" "2025-01-01 00:00:00" exDecodesBare cfgWithCompany =
      .ok (some exResBare) := by decide
  obtain ⟨-, hvalid, -⟩ :=
    claim_C5_coordinate_averaging "20250101" "2025-01-01 00:00:00" exDecodes cfgWithCompany
      exRes h (exRes.objectPushVoList.get ⟨0, by decide⟩) (List.get_mem _ _ _)
  obtain ⟨hfall, -, -⟩ :=
    claim_C5_coordinate_averaging "20250101" "2025-01-01 00:00:00" exDecodesBare cfgWithCompany
      exResBare hb (exResBare.objectPushVoList.get ⟨0, by decide⟩) (List.get_mem _ _ _)
  obtain ⟨hlon, hlat⟩ := hvalid (by decide)
  obtain ⟨hlon2, hlat2⟩ := hfall (by decide)
  exact ⟨hlon.trans (by decide), hlat.trans (by decide), hlon2, hlat2⟩

/-- Dropping leading whitespace from a whitespace-free list is the
identity. -/
theorem dropWhile_isWS_eq_self (l : List Char) (h : ∀ c ∈ l, isWS c = false) :
    l.dropWhile isWS = l := by
  cases l with
  | nil => rfl
  | cons c t => simp [List.dropWhile_cons, h c (by simp)]

/-- Stripping a whitespace-free list is the identity. -/
theorem pyStripL_eq_self (l : List Char) (h : ∀ c ∈ l, isWS c = false) :
    pyStripL l = l := by
  unfold pyStripL
  rw [dropWhile_isWS_eq_self l h,
    dropWhile_isWS_eq_self l.reverse (fun c hc => h c (List.mem_reverse.mp hc)),
    List.reverse_reverse]

/-- Decimal digits are not whitespace. -/
theorem digit_not_isWS (c : Char) (h : c.isDigit = true) : isWS c = false := by
  cases hc : isWS c with
  | false => rfl
  | true =>
    exfalso
    simp only [isWS, Bool.or_eq_true, decide_eq_true_eq] at hc
    rcases hc with ((((he | he) | he) | he) | he) | he <;>
      (subst he; exact absurd h (by decide))

/-- The `int()` model accepts a non-empty all-digit string and returns
its value. -/
theorem pyIntL_digits (l : List Char) (h : isDigitL l = true) :
    pyIntL l = some (digitsToNat l : Int) := by
  have hnw : ∀ c ∈ l, isWS c = false := by
    intro c hc
    simp only [isDigitL, Bool.and_eq_true, List.all_eq_true] at h
    exact digit_not_isWS c (h.2 c hc)
  unfold pyIntL
  rw [pyStripL_eq_self l hnw]
  cases l with
  | nil => simp [isDigitL] at h
  | cons c t =>
    have hc : c.isDigit = true := by
      simp only [isDigitL, Bool.and_eq_true, List.all_eq_true] at h
      exact h.2 c (by simp)
    have hp : c ≠ '+' := by
      intro he
      subst he
      exact absurd hc (by decide)
    have hm : c ≠ '-' := by
      intro he
      subst he
      exact absurd hc (by decide)
    split
    · rename_i r heq
      injection heq with h1 h2
      exact absurd h1 hp
    · rename_i r heq
      injection heq with h1 h2
      exact absurd h1 hm
    · simp [h]

/-- The `int()` model fails exactly on non-numeric input. -/
theorem pyIntL_eq_none_iff (l : List Char) :
    pyIntL l = none ↔ pyNumeric l = false := by
  unfold pyIntL pyNumeric
  split
  · rename_i r heq
    cases hd : isDigitL r <;> simp [hd]
  · rename_i r heq
    cases hd : isDigitL r <;> simp [hd]
  · cases hd : isDigitL (pyStripL l) <;> simp [hd]

/-- C6: phone normalization returns 0 on blank input; on input
containing the masking marker it concatenates the visible prefix, the
fixed `0000` zero-fill and the visible suffix and parses the result
(`176****5751` gives 17600005751); otherwise it removes hyphens and
spaces and parses the remainder (`138-1234-5678` gives 13812345678),
failing (a `ValueError`, the spec's `FormatError`) exactly when that
remainder is non-numeric. -/
theorem claim_C6_phone_normalization :
    (∀ s, pyStrip s = "" → parse_phone s = some 0) ∧
    parse_phone "176****5751" = some 17600005751 ∧
    parse_phone "" = some 0 ∧
    parse_phone "138-1234-5678" = some 13812345678 ∧
    (∀ s p0 rest, pyStrip s ≠ "" → splitQuad s.data = some (p0, rest) →
      splitQuad rest = none →
      parse_phone s = pyIntL (p0 ++ ['0', '0', '0', '0'] ++ rest) ∧
      (isDigitL (p0 ++ rest) = true →
        parse_phone s = some (digitsToNat (p0 ++ ['0', '0', '0', '0'] ++ rest)))) ∧
    (∀ s, pyStrip s ≠ "" → splitQuad s.data = none →
      parse_phone s =
        pyIntL ((s.data.filter (fun c => c ≠ '-')).filter (fun c => c ≠ ' ')) ∧
      (parse_phone s = none ↔
        pyNumeric ((s.data.filter (fun c => c ≠ '-')).filter (fun c => c ≠ ' ')) = false)) := by
  have hblank : ∀ s : String, pyStrip s = "" → parse_phone s = some 0 := by
    intro s h
    have he := (pyStrip_eq_empty_iff s).mp h
    simp [parse_phone, he]
  have hnotblank : ∀ s : String, pyStrip s ≠ "" → (pyStripL s.data).isEmpty = false := by
    intro s h
    cases he : pyStripL s.data with
    | nil => exact absurd ((pyStrip_eq_empty_iff s).mpr he) h
    | cons a l => rfl
  refine ⟨hblank, by decide, by decide, by decide, ?_, ?_⟩
  · intro s p0 rest hnb hsq hsq2
    have heq : parse_phone s = pyIntL (p0 ++ ['0', '0', '0', '0'] ++ rest) := by
      simp [parse_phone, hnotblank s hnb, hsq, hsq2]
    refine ⟨heq, ?_⟩
    intro hdig
    rw [heq]
    apply pyIntL_digits
    simp only [isDigitL, Bool.and_eq_true, List.all_eq_true] at hdig ⊢
    constructor
    · simp
    · intro c hc
      simp only [List.mem_append] at hc
      rcases hc with (hc | hc) | hc
      · exact hdig.2 c (by simp [hc])
      · have hc0 : c = '0' := by simpa using hc
        subst hc0
        decide
      · exact hdig.2 c (by simp [hc])
  · intro s hnb hsq
    have heq : parse_phone s =
        pyIntL ((s.data.filter (fun c => c ≠ '-')).filter (fun c => c ≠ ' ')) := by
      simp [parse_phone, hnotblank s hnb, hsq]
    exact ⟨heq, heq ▸ pyIntL_eq_none_iff _⟩

/-- C6 witness: concrete instances of every quantified conjunct,
including a masked number, a hyphen/space-stripped number, and a
non-numeric failure. -/
theorem claim_C6_witness :
    parse_phone "  " = some 0 ∧
    parse_phone "139****0000" = some 13900000000 ∧
    parse_phone "1 3-8" = some 138 ∧
    parse_phone "13a" = none := by
  obtain ⟨h1, -, -, -, h5, h6⟩ := claim_C6_phone_normalization
  refine ⟨h1 "  " (by decide), ?_, ?_, ?_⟩
  · have := (h5 "139****0000" ['1', '3', '9'] ['0', '0', '0', '0']
      (by decide) (by decide) (by decide)).2 (by decide)
    exact this.trans (by decide)
  · have := (h6 "1 3-8" (by decide) (by decide)).1
    exact this.trans (by decide)
  · exact ((h6 "13a" (by decide) (by decide)).2).mpr (by decide)

/-- C7: timestamp normalization is total: blank input yields the
current instant (the injected `now`); otherwise the slash pattern is
tried first, then the dash pattern, the first full match winning and
being reformatted as `YYYY-MM-DD HH:MM:SS`; input matching neither
pattern falls back to the current instant. -/
theorem claim_C7_timestamp_normalization :
    (∀ now s, pyStrip s = "" → parse_datetime now s = now) ∧
    (∀ now, parse_datetime now "2025/9/25 10:49" = "2025-09-25 10:49:00") ∧
    (∀ now, parse_datetime now "2025-9-25 10:49" = "2025-09-25 10:49:00") ∧
    (∀ now s d, strptimeYmdHm '/' s.data = some d → pyStrip s ≠ "" →
      parse_datetime now s = fmtDT d) ∧
    (∀ now s d, strptimeYmdHm '/' s.data = none → strptimeYmdHm '-' s.data = some d →
      pyStrip s ≠ "" → parse_datetime now s = fmtDT d) ∧
    (∀ now s, strptimeYmdHm '/' s.data = none → strptimeYmdHm '-' s.data = none →
      parse_datetime now s = now) := by
  have hnotblank : ∀ s : String, pyStrip s ≠ "" → (pyStripL s.data).isEmpty = false := by
    intro s h
    cases he : pyStripL s.data with
    | nil => exact absurd ((pyStrip_eq_empty_iff s).mpr he) h
    | cons a l => rfl
  refine ⟨?_, ?_, ?_, ?_, ?_, ?_⟩
  · intro now s h
    have he := (pyStrip_eq_empty_iff s).mp h
    simp [parse_datetime, he]
  · intro now
    rfl
  · intro now
    rfl
  · intro now s d hp hnb
    simp [parse_datetime, hnotblank s hnb, hp]
  · intro now s d hp hd hnb
    simp [parse_datetime, hnotblank s hnb, hp, hd]
  · intro now s hp hd
    cases hb : (pyStripL s.data).isEmpty with
    | true => simp [parse_datetime, hb]
    | false => simp [parse_datetime, hb, hp, hd]

/-- C7 witness: the two spec examples, a blank input, a non-date input
and an invalid calendar date (February 30) all behave as claimed. -/
theorem claim_C7_witness :
    parse_datetime "2025-10-12 00:00:00" "   " = "2025-10-12 00:00:00" ∧
    parse_datetime "2025-10-12 00:00:00" "2025/9/25 10:49" = "2025-09-25 10:49:00" ∧
    parse_datetime "2025-10-12 00:00:00" "2025-9-25 10:49" = "2025-09-25 10:49:00" ∧
    parse_datetime "2025-10-12 00:00:00" "not a date" = "2025-10-12 00:00:00" ∧
    parse_datetime "2025-10-12 00:00:00" "2025/2/30 10:49" = "2025-10-12 00:00:00" := by
  obtain ⟨h1, h2, h3, h4, h5, h6⟩ := claim_C7_timestamp_normalization
  exact ⟨h1 "2025-10-12 00:00:00" "   " (by decide),
    h2 "2025-10-12 00:00:00", h3 "2025-10-12 00:00:00",
    h6 "2025-10-12 00:00:00" "not a date" (by decide) (by decide),
    h6 "2025-10-12 00:00:00" "2025/2/30 10:49" (by decide) (by decide)⟩

/-- C9: the identifier generator emits exactly
`prefix ++ "_" ++ today(YYYYMMDD) ++ "_" ++ index zero-padded to three
digits` (the padded field reads back to the index and has width three
whenever the index has at most three digits), and is deterministic for
a fixed calendar day and prefix/index pair. -/
theorem claim_C9_generate_id_format (today pre2 : String) (index : Nat) :
    generate_id today pre2 index =
      pre2 ++ "_" ++ today ++ "_" ++
        String.mk (List.replicate (3 - (natDigits index).length) '0' ++ natDigits index) ∧
    digitsToNat (pyZfill (pyStr index) 3).data = index ∧
    (index ≤ 999 → (pyZfill (pyStr index) 3).data.length = 3) ∧
    (∀ today2, today2 = today → generate_id today2 pre2 index = generate_id today pre2 index) := by
  refine ⟨rfl, digitsToNat_zfill_natDigits 3 index, ?_, ?_⟩
  · intro hle
    exact zfill_natDigits_length 3 index (natDigits_length_le_three index hle)
  · intro today2 h
    rw [h]

/-- C9 witness: `generate_id` at concrete inputs, with the padded-width
hypothesis discharged at index 7. -/
theorem claim_C9_witness :
    generate_id "20250101" "OBJ" 1 = "OBJ_20250101_001" ∧
    digitsToNat (pyZfill (pyStr 7) 3).data = 7 ∧
    (pyZfill (pyStr 7) 3).data.length = 3 := by
  obtain ⟨h1, -, -, -⟩ := claim_C9_generate_id_format "20250101" "OBJ" 1
  obtain ⟨-, g2, g3, -⟩ := claim_C9_generate_id_format "20250101" "OBJ" 7
  exact ⟨h1.trans (by decide), g2, g3 (by decide)⟩
